import Mathlib

/-!
Verification development for the `@edgefirst-dev/jwt` library.

The development shallowly embeds the key lifecycle manager (`src/lib/jwk.ts`,
namespace `JWK`) and the token codec / claims accessor (`src/lib/jwt.ts`,
class `JWT`, payload revision) of the repository.  External capabilities are
modelled structurally:

* the asymmetric crypto provider (`jose`): a public key is a record of its
  JWK projection fields; SPKI / PKCS8 PEM encodings are modelled as lossless
  wrappers, so `jose.importSPKI` inverts `jose.exportSPKI` exactly, which is
  the contract the library relies on;
* the storage adapter (`@mjackson/file-storage`): a finite map from string
  keys to stored records.  `list({prefix, cursor?, limit})` enumerates the
  keys under the given purpose string in lexicographic key order (the
  canonical order of cursor-paginated object stores) and returns a cursor
  exactly when more matching keys remain beyond the returned page;
* the stored blob: the source writes `JSON.stringify(serialized)` and reads
  it back with `JSON.parse`, an exact round trip for these flat records, so
  a blob is modelled as the serialized record itself;
* nondeterminism (`crypto.randomUUID()`, `Date.now()`, `jose.generateKeyPair`)
  is threaded explicitly: a `GenSupply` provides the id, key material and
  timestamp of the n-th generation performed by a call, and the lifecycle
  state carries the generation counter;
* the unbounded recursion of `signingKeys` / `encryptionKeys` (regenerate and
  rescan until a valid key is found) is given explicit fuel; running out of
  fuel yields `none`, which models nontermination, while storage and crypto
  errors cannot occur in the structural model.

JS `Date` values are modelled as their millisecond epoch value (`Int`), and a
single instant `now` stands for every `Date.now()` read inside one accessor
call.
-/

namespace JWKModel

/-- Strict lexicographic order on character lists, comparing code points.
This is the order in which the modelled storage adapter lists its keys. -/
def charListLt : List Char → List Char → Bool
  | [], [] => false
  | [], _ :: _ => true
  | _ :: _, [] => false
  | a :: as, b :: bs =>
    if a.val < b.val then true
    else if b.val < a.val then false
    else charListLt as bs

/-- Lexicographic order on storage keys. -/
def keyLt (a b : String) : Bool := charListLt a.data b.data

/-- Whether the first character list is an initial segment of the second. -/
def hasPfx : List Char → List Char → Bool
  | [], _ => true
  | _ :: _, [] => false
  | a :: as, b :: bs => a == b && hasPfx as bs

/-- Whether the storage key `k` lies under the purpose string `p`
(the adapter's prefix filter). -/
def keyHasPfx (p k : String) : Bool := hasPfx p.data k.data

/-- Insert a key into a lexicographically ascending key list. -/
def insertKey (k : String) : List String → List String
  | [] => [k]
  | x :: xs => if keyLt k x then k :: x :: xs else x :: insertKey k xs

/-- Sort a key list lexicographically (the adapter's listing order). -/
def sortKeys : List String → List String
  | [] => []
  | k :: ks => insertKey k (sortKeys ks)

/-- The algorithms of the library, `JWK.Algoritm` in `src/lib/jwk.ts`:
`ES256` for signing, `RSA-OAEP-512` for encryption. -/
inductive Algoritm where
  | ES256
  | RSA_OAEP_512
deriving DecidableEq, Repr

/-- The string value of the `JWK.Algoritm` enum member. -/
def Algoritm.str : Algoritm → String
  | .ES256 => "ES256"
  | .RSA_OAEP_512 => "RSA-OAEP-512"

/-- Model of a public key held by the external crypto provider: the fields of
its JWK projection. -/
structure PublicKey where
  kty : String
  crv : String
  x : String
  y : String
deriving DecidableEq, Repr

/-- Model of a private key held by the external crypto provider. -/
structure PrivateKey where
  material : String
deriving DecidableEq, Repr

/-- An SPKI PEM string: the lossless export of a public key
(`jose.exportSPKI`). -/
structure SPKIPem where
  key : PublicKey
deriving DecidableEq, Repr

/-- A PKCS8 PEM string: the lossless export of a private key
(`jose.exportPKCS8`). -/
structure PKCS8Pem where
  key : PrivateKey
deriving DecidableEq, Repr

/-- Model of `jose.exportSPKI`. -/
def exportSPKI (k : PublicKey) : SPKIPem := ⟨k⟩

/-- Model of `jose.importSPKI`: recovers the key encoded in the PEM. -/
def importSPKI (p : SPKIPem) : PublicKey := p.key

/-- Model of `jose.exportPKCS8`. -/
def exportPKCS8 (k : PrivateKey) : PKCS8Pem := ⟨k⟩

/-- Model of `jose.importPKCS8`. -/
def importPKCS8 (p : PKCS8Pem) : PrivateKey := p.key

/-- Model of a `jose.JWK` value: the projection of a public key, plus the
`kid` and `use` members the library writes after exporting. -/
structure JWKJson where
  kty : String
  crv : String
  x : String
  y : String
  kid : Option String
  use : Option String
deriving DecidableEq, Repr

/-- Model of `jose.exportJWK`: projects a public key to its JWK form, with
no `kid` or `use` member yet. -/
def exportJWK (k : PublicKey) : JWKJson :=
  { kty := k.kty, crv := k.crv, x := k.x, y := k.y, kid := none, use := none }

/-- A stored key record, `SerializedKeyPair` in the source: the value
produced by `JWK.generateKeyPair` and written by `storeKeyPair`
(`expired` is absent on freshly generated records and may be present on
records already in storage). -/
structure SerializedKeyPair where
  id : String
  publicKey : SPKIPem
  privateKey : PKCS8Pem
  created : Int
  alg : Algoritm
  expired : Option Int
deriving DecidableEq, Repr

/-- The in-memory key pair, interface `KeyPair` of `src/lib/jwk.ts`.  The
source fields `public` and `private` are `pub` and `priv` here (`private` is
reserved in Lean). -/
structure KeyPair where
  id : String
  alg : Algoritm
  pub : PublicKey
  priv : PrivateKey
  created : Int
  expired : Option Int
  jwk : JWKJson
deriving DecidableEq, Repr

/-- The storage adapter state: stored files keyed by string, in insertion
order; listing sorts the keys. -/
structure Storage where
  files : List (String × SerializedKeyPair)
deriving DecidableEq, Repr

/-- The adapter's `set(key, blob)`: replace the record at `key`, or add it. -/
def Storage.set (st : Storage) (key : String) (blob : SerializedKeyPair) : Storage :=
  if st.files.any (fun f => f.1 == key) then
    ⟨st.files.map (fun f => if f.1 == key then (key, blob) else f)⟩
  else
    ⟨st.files ++ [(key, blob)]⟩

/-- The adapter's `get(key)`: the record stored at `key`, if any. -/
def Storage.get (st : Storage) (key : String) : Option SerializedKeyPair :=
  (st.files.find? (fun f => f.1 == key)).map Prod.snd

/-- The keys under the purpose string `pfx`, in the adapter's listing order. -/
def Storage.keysUnder (st : Storage) (pfx : String) : List String :=
  sortKeys ((st.files.map Prod.fst).filter (fun k => keyHasPfx pfx k))

/-- One page of the adapter's `list({prefix, cursor?, limit})` response:
the matching keys of the page, and a cursor when more matching keys remain. -/
structure ListResult where
  files : List String
  cursor : Option String
deriving DecidableEq, Repr

/-- The adapter's `list({prefix, cursor?, limit})`: the first `limit` keys
under `pfx` strictly after the cursor position (from the start when no cursor
is given), with a cursor naming the last returned key exactly when further
matching keys remain. -/
def Storage.listPage (st : Storage) (pfx : String) (cursor : Option String)
    (limit : Nat) : ListResult :=
  let matching := st.keysUnder pfx
  let after := match cursor with
    | none => matching
    | some c => matching.filter (fun k => keyLt c k)
  { files := after.take limit
    cursor := if limit < after.length then (after.take limit).getLast? else none }

/-- The supply of external nondeterminism consumed by key generation: the
UUID, the generated public and private key material, and the `Date.now()`
reading of the n-th generation step performed by a call. -/
structure GenSupply where
  uuid : Nat → String
  pubKey : Nat → PublicKey
  privKey : Nat → PrivateKey
  now : Nat → Int

namespace JWK

/-- The storage namespace of signing keys, `Prefix.Signing` in the source. -/
def signingPfx : String := "signing:key"

/-- The storage namespace of encryption keys, `Prefix.Encryption`. -/
def encryptionPfx : String := "encryption:key"

/-- The inner loop of the async generator `scan` in `src/lib/jwk.ts`
(lines 38-47): while a cursor is present, issue `list(prefix, cursor,
limit=1)`, yield the page's file keys, and advance the cursor; when the
response carries no cursor the generator returns (its return value is the
iterator's done-value, which `for await` discards).  The loop advances the
cursor strictly through the finite matching key list, so any fuel of at
least that list's length runs it to completion. -/
def scanLoop (st : Storage) (pfx : String) : Nat → String → List (List String)
  | 0, _ => []
  | fuel + 1, c =>
    let result := st.listPage pfx (some c) 1
    result.files ::
      (match result.cursor with
        | none => []
        | some c2 => scanLoop st pfx fuel c2)

/-- The pages yielded by one full run of the async generator `scan`
(`src/lib/jwk.ts` lines 35-49), as consumed by `for await`.  The initial
`list(prefix, limit=1)` response is inspected only for its cursor: when no
cursor comes back the generator executes `return files`, and when the loop
ends it also executes `return files`; a generator's return value is not
yielded, so in both cases the initial page's entries are absent from the
iterated sequence.  `st.files.length` bounds the loop's iteration count, so
it is sufficient fuel. -/
def scan (st : Storage) (pfx : String) : List (List String) :=
  let r0 := st.listPage pfx none 1
  match r0.cursor with
  | none => []
  | some c => scanLoop st pfx st.files.length c

/-- The body of `JWK.importKeyPair` (`src/lib/jwk.ts` lines 77-99): import
the stored PEM material, export the public JWK, set `kid` to the record id
and `use` to `"sig"`, and build the in-memory pair.  The source hard-codes
`alg: Algoritm.ES256` in the returned object, whatever `value.alg` holds. -/
def importKeyPair (value : SerializedKeyPair) : KeyPair :=
  let publicKey := importSPKI value.publicKey
  let privateKey := importPKCS8 value.privateKey
  let jwk := exportJWK publicKey
  let jwk := { jwk with kid := some value.id, use := some "sig" }
  { id := value.id
    alg := Algoritm.ES256
    created := value.created
    expired := value.expired
    pub := publicKey
    priv := privateKey
    jwk := jwk }

/-- The body of `JWK.generateKeyPair` (`src/lib/jwk.ts` lines 113-122),
with the crypto provider's key generation, `crypto.randomUUID()` and
`Date.now()` drawn from the supply at index `n`.  The returned record has no
`expired` member. -/
def generateKeyPair (supply : GenSupply) (n : Nat) (alg : Algoritm) : SerializedKeyPair :=
  { id := supply.uuid n
    publicKey := exportSPKI (supply.pubKey n)
    privateKey := exportPKCS8 (supply.privKey n)
    created := supply.now n
    alg := alg
    expired := none }

/-- The body of `storeKeyPair` (`src/lib/jwk.ts` lines 51-61): write the
serialized record under `{prefix}:{id}`. -/
def storeKeyPair (st : Storage) (pfx : String) (serialized : SerializedKeyPair) : Storage :=
  st.set (pfx ++ ":" ++ serialized.id) serialized

/-- The `for await` loop of `signingKeys` / `encryptionKeys`
(`src/lib/jwk.ts` lines 139-147 and 175-183): for each yielded page take its
first entry (`let [fileKey] = page`), skip the page when that is absent, skip
it when `storage.get` finds nothing, and otherwise parse the blob and push
`importKeyPair(data)`. -/
def collectPairs (st : Storage) : List (List String) → List KeyPair
  | [] => []
  | page :: rest =>
    match page.head? with
    | none => collectPairs st rest
    | some fileKey =>
      match st.get fileKey with
      | none => collectPairs st rest
      | some data => importKeyPair data :: collectPairs st rest

/-- Insertion step of the stable descending sort below. -/
def insertByCreatedDesc (x : KeyPair) : List KeyPair → List KeyPair
  | [] => [x]
  | y :: ys => if y.created ≤ x.created then x :: y :: ys else y :: insertByCreatedDesc x ys

/-- The call `results.sort((a, b) => b.created.getTime() - a.created.getTime())`
(`src/lib/jwk.ts` line 149): a stable sort by `created` descending —
`Array.prototype.sort` is stable per the ECMAScript specification, and this
insertion sort keeps earlier elements first among equal timestamps exactly as
a stable sort does. -/
def sortByCreatedDesc : List KeyPair → List KeyPair
  | [] => []
  | x :: xs => insertByCreatedDesc x (sortByCreatedDesc xs)

/-- JavaScript truthiness of the optional `expired` number carried by a key
pair (`importKeyPair` passes the stored raw number through): `undefined` is
falsy and so is the number `0`; every other number is truthy. -/
def expiredTruthy : Option Int → Bool
  | none => false
  | some v => v != 0

/-- The mutable state threaded through one `signingKeys` / `encryptionKeys`
call: the storage adapter, the index of the next generation-supply draw, and
the number of records the call has written so far. -/
structure LifecycleState where
  storage : Storage
  ctr : Nat
  writes : Nat
deriving DecidableEq, Repr

/-- The outcome of a completed call: the returned key pairs and the final
state. -/
structure KeysResult where
  keys : List KeyPair
  final : LifecycleState
deriving DecidableEq, Repr

/-- The shared body of `JWK.signingKeys` (`src/lib/jwk.ts` lines 136-157)
and `JWK.encryptionKeys` (lines 170-193), which differ only in the purpose
string and generation algorithm: scan the purpose's keys, decode each fetched
record with `importKeyPair`, sort by `created` descending, and return the
collection when the check `results.filter((item) => !item.expired)` finds a
pair whose `expired` is JS-falsy — absent or the number `0`; otherwise
generate a new key pair, persist it with `storeKeyPair`, and recurse.  The
recursion is unbounded in the source; `fuel` makes it total, with `none`
standing for nontermination. -/
def keysFor (supply : GenSupply) (pfx : String) (alg : Algoritm) :
    Nat → LifecycleState → Option KeysResult
  | 0, _ => none
  | fuel + 1, state =>
    let results := collectPairs state.storage (scan state.storage pfx)
    let results := sortByCreatedDesc results
    if 0 < (results.filter (fun item => !expiredTruthy item.expired)).length then
      some { keys := results, final := state }
    else
      let serialized := generateKeyPair supply state.ctr alg
      let st2 := storeKeyPair state.storage pfx serialized
      keysFor supply pfx alg fuel
        { storage := st2, ctr := state.ctr + 1, writes := state.writes + 1 }

/-- `JWK.signingKeys(storage)`: the signing purpose with `ES256`. -/
def signingKeys (supply : GenSupply) (fuel : Nat) (state : LifecycleState) :
    Option KeysResult :=
  keysFor supply signingPfx Algoritm.ES256 fuel state

/-- `JWK.encryptionKeys(storage)`: the encryption purpose with
`RSA-OAEP-512`. -/
def encryptionKeys (supply : GenSupply) (fuel : Nat) (state : LifecycleState) :
    Option KeysResult :=
  keysFor supply encryptionPfx Algoritm.RSA_OAEP_512 fuel state

end JWK

namespace JWT

/-- The claims payload behind a `JWT` instance (`src/lib/jwt.ts`, payload
revision): the registered claims exercised by the embedded operations, each
absent or a value.  `exp`, `iat` and `nbf` are numbers in the payload;
numbers are modelled as integers. -/
structure Payload where
  iss : Option String
  sub : Option String
  exp : Option Int
deriving DecidableEq, Repr

/-- The accessor `get expiresIn()` (`src/lib/jwt.ts` lines 195-198): the raw
`exp` claim when present, `null` otherwise. -/
def expiresIn (p : Payload) : Option Int := p.exp

/-- The accessor `get expiresAt()` (`src/lib/jwt.ts` lines 204-207):
`if (this.expiresIn) return new Date(Date.now() + this.expiresIn)` — the
guard is JavaScript truthiness, so both an absent `exp` and `exp === 0`
produce `null`; otherwise the result is the current time plus the raw `exp`
value, read as milliseconds. -/
def expiresAt (p : Payload) (now : Int) : Option Int :=
  match expiresIn p with
  | none => none
  | some v => if v = 0 then none else some (now + v)

/-- The accessor `get expired()` (`src/lib/jwt.ts` lines 209-212): `false`
when `expiresAt` is `null`, else `expiresAt < new Date()`. -/
def expired (p : Payload) (now : Int) : Bool :=
  match expiresAt p now with
  | none => false
  | some t => t < now

/-- The protected header written by `JWT.sign`
(`src/lib/jwt.ts` line 318): `{ alg: algorithm, typ: "JWT", kid: "sst" }`. -/
structure Header where
  alg : String
  typ : String
  kid : String
deriving DecidableEq, Repr

/-- Model of the crypto provider's signing primitive: the signature value of
`jose.SignJWT(payload).setProtectedHeader(header).sign(privateKey)` is
determined by the private key and the signed content. -/
inductive Signature where
  | mk (priv : PrivateKey) (header : Header) (payload : Payload)
deriving DecidableEq, Repr

/-- A produced compact token `header.payload.signature`. -/
structure Token where
  header : Header
  payload : Payload
  sig : Signature
deriving DecidableEq, Repr

/-- The body of static `JWT.sign(jwt, algorithm, jwks)` (`src/lib/jwt.ts`
lines 306-320): find the first key pair whose `alg` equals the requested
algorithm — throw `No key available to sign JWT with algorithm …` when none
matches — and sign the payload under the protected header
`{ alg: algorithm, typ: "JWT", kid: "sst" }` with that pair's private key.
The thrown error is an `Except.error` carrying the message. -/
def sign (jwt : Payload) (algorithm : Algoritm) (jwks : List KeyPair) :
    Except String Token :=
  match jwks.find? (fun key => key.alg == algorithm) with
  | none =>
    Except.error ("No key available to sign JWT with algorithm " ++ algorithm.str)
  | some key =>
    let header : Header := { alg := algorithm.str, typ := "JWT", kid := "sst" }
    Except.ok { header := header, payload := jwt, sig := Signature.mk key.priv header jwt }

end JWT

/-- A concrete generation supply used to evaluate the embedded operations:
the n-th generation draws id `u{n}`, fresh EC key material, and timestamp
`1000 + n`. -/
def demoSupply : GenSupply :=
  { uuid := fun n => "u" ++ Nat.repr n
    pubKey := fun n => ⟨"EC", "P-256", "x" ++ Nat.repr n, "y" ++ Nat.repr n⟩
    privKey := fun n => ⟨"d" ++ Nat.repr n⟩
    now := fun n => 1000 + (n : Int) }

/-- The lifecycle state over an empty storage adapter. -/
def emptyState : JWK.LifecycleState := ⟨⟨[]⟩, 0, 0⟩

/-- A stored, non-expired signing record with id `a`, created at 10. -/
def recA : SerializedKeyPair :=
  { id := "a", publicKey := ⟨⟨"EC", "P-256", "xa", "ya"⟩⟩, privateKey := ⟨⟨"da"⟩⟩
    created := 10, alg := .ES256, expired := none }

/-- A stored, non-expired signing record with id `b`, created at 20. -/
def recB : SerializedKeyPair :=
  { id := "b", publicKey := ⟨⟨"EC", "P-256", "xb", "yb"⟩⟩, privateKey := ⟨⟨"db"⟩⟩
    created := 20, alg := .ES256, expired := none }

/-- A stored signing record with id `z`, created at 50 and expired at 60. -/
def recZ : SerializedKeyPair :=
  { id := "z", publicKey := ⟨⟨"EC", "P-256", "xz", "yz"⟩⟩, privateKey := ⟨⟨"dz"⟩⟩
    created := 50, alg := .ES256, expired := some 60 }

/-- An RSA record as stored for the encryption purpose. -/
def rsaRecord : SerializedKeyPair :=
  { id := "r", publicKey := ⟨⟨"RSA", "", "nr", "er"⟩⟩, privateKey := ⟨⟨"dr"⟩⟩
    created := 30, alg := .RSA_OAEP_512, expired := none }

/-- A storage adapter holding exactly one signing record. -/
def oneKeyStore : Storage := ⟨[("signing:key:a", recA)]⟩

/-- A storage adapter holding two non-expired signing records with distinct
`created` timestamps. -/
def twoKeyStore : Storage := ⟨[("signing:key:a", recA), ("signing:key:b", recB)]⟩

/-- A storage adapter on which every signing record is expired. -/
def allExpiredStore : Storage := ⟨[("signing:key:z", recZ)]⟩

/-- A stored signing record with id `a`, created at 10, expired at 5. -/
def recExpFive : SerializedKeyPair :=
  { id := "a", publicKey := ⟨⟨"EC", "P-256", "xa", "ya"⟩⟩, privateKey := ⟨⟨"da"⟩⟩
    created := 10, alg := .ES256, expired := some 5 }

/-- A stored signing record with id `b`, created at 20, whose `expired`
field is present but holds the falsy number 0. -/
def recExpZero : SerializedKeyPair :=
  { id := "b", publicKey := ⟨⟨"EC", "P-256", "xb", "yb"⟩⟩, privateKey := ⟨⟨"db"⟩⟩
    created := 20, alg := .ES256, expired := some 0 }

/-- A storage adapter on which the one yielded signing record (`b`) carries
`expired: 0`, which JavaScript truthiness counts as valid. -/
def zeroExpiredStore : Storage :=
  ⟨[("signing:key:a", recExpFive), ("signing:key:b", recExpZero)]⟩

/-- The result of `signingKeys` over `zeroExpiredStore` with `demoSupply`
and fuel 3. -/
def c1CexRes : JWK.KeysResult :=
  (JWK.keysFor demoSupply JWK.signingPfx Algoritm.ES256 3 ⟨zeroExpiredStore, 0, 0⟩).getD
    ⟨[], emptyState⟩

/-- A concrete claims payload. -/
def demoPayload : JWT.Payload := ⟨some "https://example.com", some "subject", none⟩

/-- A concrete ES256 key pair with id `k1`. -/
def keyK1 : KeyPair :=
  { id := "k1", alg := .ES256, pub := ⟨"EC", "P-256", "x1", "y1"⟩
    priv := ⟨"d1"⟩, created := 10, expired := none
    jwk := ⟨"EC", "P-256", "x1", "y1", some "k1", some "sig"⟩ }

/-- A concrete RSA-OAEP-512 key pair with id `r1`. -/
def keyR1 : KeyPair :=
  { id := "r1", alg := .RSA_OAEP_512, pub := ⟨"RSA", "", "n1", "e1"⟩
    priv := ⟨"dr1"⟩, created := 11, expired := none
    jwk := ⟨"RSA", "", "n1", "e1", some "r1", none⟩ }

/-- The result of `signingKeys` over the empty store with `demoSupply` and
fuel 3. -/
def c1Res : JWK.KeysResult :=
  (JWK.keysFor demoSupply JWK.signingPfx Algoritm.ES256 3 emptyState).getD ⟨[], emptyState⟩

/-- The token produced by signing `demoPayload` with `ES256` over the key
list `[keyK1]`. -/
def c7Tok : JWT.Token :=
  { header := ⟨"ES256", "JWT", "sst"⟩, payload := demoPayload
    sig := JWT.Signature.mk keyK1.priv ⟨"ES256", "JWT", "sst"⟩ demoPayload }

/-- The token produced by signing `demoPayload` with `ES256` over the key
list `[keyR1, keyK1]`, whose first algorithm match is `keyK1`. -/
def c8Tok : JWT.Token :=
  { header := ⟨"ES256", "JWT", "sst"⟩, payload := demoPayload
    sig := JWT.Signature.mk keyK1.priv ⟨"ES256", "JWT", "sst"⟩ demoPayload }

/-- The result of `encryptionKeys` over the empty store with `demoSupply`
and fuel 3. -/
def c10Res : JWK.KeysResult :=
  (JWK.encryptionKeys demoSupply 3 emptyState).getD ⟨[], emptyState⟩

/-- The first key pair of `c10Res`. -/
def c10Head : KeyPair := c10Res.keys.headD (JWK.importKeyPair rsaRecord)

/-- A successful `List.find?` returns the first element satisfying the
predicate: the element sits at an index every predecessor of which fails the
predicate. -/
theorem find_first_spec {α : Type} (p : α → Bool) :
    ∀ (l : List α) (a : α), l.find? p = some a →
      ∃ i, ∃ h : i < l.length, l.get ⟨i, h⟩ = a ∧ p a = true ∧
        ∀ j, ∀ hj : j < l.length, j < i → p (l.get ⟨j, hj⟩) = false := by
  intro l
  induction l with
  | nil => intro a h; cases h
  | cons x xs ih =>
    intro a h
    by_cases hp : p x = true
    · rw [List.find?_cons_of_pos _ hp] at h
      cases h
      refine ⟨0, by simp, rfl, hp, ?_⟩
      intro j hj hlt
      omega
    · rw [List.find?_cons_of_neg _ hp] at h
      obtain ⟨i, hi, hget, hpa, hprev⟩ := ih a h
      refine ⟨i + 1, by simpa using Nat.succ_lt_succ hi, by simpa using hget, hpa, ?_⟩
      intro j hj hlt
      cases j with
      | zero => simpa using Bool.eq_false_iff.mpr hp
      | succ j2 =>
        have hj2 : j2 < xs.length := by simpa using hj
        have := hprev j2 hj2 (by omega)
        simpa using this

/-- Membership after one insertion step of the stable descending sort. -/
theorem mem_insertByCreatedDesc {a x : KeyPair} :
    ∀ {l : List KeyPair}, a ∈ JWK.insertByCreatedDesc x l → a = x ∨ a ∈ l := by
  intro l
  induction l with
  | nil =>
    intro h
    simp only [JWK.insertByCreatedDesc] at h
    exact Or.inl (by simpa using h)
  | cons y ys ih =>
    intro h
    simp only [JWK.insertByCreatedDesc] at h
    split at h
    · rcases List.mem_cons.mp h with h1 | h2
      · exact Or.inl h1
      · exact Or.inr h2
    · rcases List.mem_cons.mp h with h1 | h2
      · exact Or.inr (List.mem_cons.mpr (Or.inl h1))
      · rcases ih h2 with hx | hys
        · exact Or.inl hx
        · exact Or.inr (List.mem_cons.mpr (Or.inr hys))

/-- The stable descending sort creates no new elements. -/
theorem mem_sortByCreatedDesc {a : KeyPair} :
    ∀ {l : List KeyPair}, a ∈ JWK.sortByCreatedDesc l → a ∈ l := by
  intro l
  induction l with
  | nil => intro h; simp [JWK.sortByCreatedDesc] at h
  | cons x xs ih =>
    intro h
    simp only [JWK.sortByCreatedDesc] at h
    rcases mem_insertByCreatedDesc h with h1 | h2
    · exact List.mem_cons.mpr (Or.inl h1)
    · exact List.mem_cons.mpr (Or.inr (ih h2))

/-- Every key pair collected from the scanned pages is the image of some
stored record under `importKeyPair`. -/
theorem collectPairs_mem {st : Storage} :
    ∀ {pages : List (List String)} {kp : KeyPair},
      kp ∈ JWK.collectPairs st pages → ∃ d, kp = JWK.importKeyPair d := by
  intro pages
  induction pages with
  | nil => intro kp h; simp [JWK.collectPairs] at h
  | cons page rest ih =>
    intro kp h
    simp only [JWK.collectPairs] at h
    split at h
    · exact ih h
    · split at h
      · exact ih h
      · rcases List.mem_cons.mp h with h1 | h2
        · exact ⟨_, h1⟩
        · exact ih h2

/-- Every key pair in a collection returned by `keysFor` is the image of
some stored record under `importKeyPair`. -/
theorem keysFor_mem_import (supply : GenSupply) (pfx : String) (alg : Algoritm) :
    ∀ (fuel : Nat) (state : JWK.LifecycleState) (res : JWK.KeysResult),
      JWK.keysFor supply pfx alg fuel state = some res →
      ∀ kp ∈ res.keys, ∃ d, kp = JWK.importKeyPair d := by
  intro fuel
  induction fuel with
  | zero => intro state res h; simp [JWK.keysFor] at h
  | succ n ih =>
    intro state res h
    simp only [JWK.keysFor] at h
    split at h
    · cases h
      intro kp hkp
      exact collectPairs_mem (mem_sortByCreatedDesc hkp)
    · exact ih _ _ h

/-- Claim C1 fails on the code as stated: over `zeroExpiredStore`, whose one
yielded record carries `expired: 0`, the lookup returns without error a
non-empty collection in which NO key pair has `expired` absent — the
validity check is JavaScript truthiness `!item.expired`, and the number 0 is
falsy, so the `expired: 0` pair counts as valid and no fresh key is
generated. -/
theorem keysFor_expired_zero_counterexample :
    ∃ res, JWK.keysFor demoSupply JWK.signingPfx Algoritm.ES256 3
        ⟨zeroExpiredStore, 0, 0⟩ = some res ∧
      res.keys ≠ [] ∧ (∀ kp ∈ res.keys, kp.expired ≠ none) ∧
      res.keys.map (fun k => (k.id, k.expired)) = [("b", some 0)] ∧
      res.final.writes = 0 :=
  ⟨c1CexRes, rfl, by decide, by decide, by decide, by decide⟩

/-- Claim C1 as amended: whenever the key lookup (`keysFor`, the shared body
of `JWK.signingKeys` and `JWK.encryptionKeys`) returns a collection, that
collection is non-empty and holds at least one key pair whose `expired`
field is JS-falsy — absent or equal to 0.  The only other outcomes are
failure and nontermination (`none` here); an empty collection is never
returned. -/
theorem keysFor_returns_truthy_valid_key (supply : GenSupply) (pfx : String)
    (alg : Algoritm) :
    ∀ (fuel : Nat) (state : JWK.LifecycleState) (res : JWK.KeysResult),
      JWK.keysFor supply pfx alg fuel state = some res →
      res.keys ≠ [] ∧ ∃ kp ∈ res.keys, JWK.expiredTruthy kp.expired = false := by
  intro fuel
  induction fuel with
  | zero => intro state res h; simp [JWK.keysFor] at h
  | succ n ih =>
    intro state res h
    simp only [JWK.keysFor] at h
    split at h
    · next hcond =>
      cases h
      obtain ⟨x, hx⟩ := List.exists_mem_of_length_pos hcond
      obtain ⟨hmem, hexp⟩ := List.mem_filter.mp hx
      exact ⟨List.ne_nil_of_mem hmem, x, hmem, by simpa using hexp⟩
    · exact ih _ _ h

/-- Witness for the amended C1: the signing lookup over the empty store
returns a non-empty collection containing a truthiness-valid key pair. -/
theorem keysFor_returns_truthy_valid_key_witness :
    c1Res.keys ≠ [] ∧ ∃ kp ∈ c1Res.keys, JWK.expiredTruthy kp.expired = false :=
  keysFor_returns_truthy_valid_key demoSupply JWK.signingPfx Algoritm.ES256 3 emptyState
    c1Res rfl

/-- Claim C2 fails on the code: over a store holding exactly one signing
record, the initial `list(prefix, limit=1)` page contains that record's key,
yet the scan as iterated by `for await` yields no entries at all — the
generator only `return`s the initial batch, and a generator's return value
is discarded by iteration.  The claim says the initial page's entries appear
in the produced sequence. -/
theorem scan_drops_initial_page :
    (oneKeyStore.listPage JWK.signingPfx none 1).files = ["signing:key:a"] ∧
    JWK.scan oneKeyStore JWK.signingPfx = [] :=
  ⟨rfl, rfl⟩

/-- Claim C3 fails on the code: one `signingKeys` call over the empty store
persists TWO new key records, not one.  The first generated record is the
only record on the retry scan, so it sits on the initial listing page, which
the scan discards; a second generation is needed before any record lands on
a yielded page.  The call does return exactly one pair with `expired` absent
whose id a subsequent `get` finds (record `u1`), but the write count is 2. -/
theorem signingKeys_empty_store_writes_twice :
    (JWK.signingKeys demoSupply 3 emptyState).map
        (fun r => (r.final.writes, r.keys.map KeyPair.id, r.keys.map KeyPair.expired,
          (r.final.storage.get "signing:key:u1").map SerializedKeyPair.id)) =
      some (2, ["u1"], [none], some "u1") := by
  decide

/-- Claim C4 fails on the code: with `exp` equal to the Unix timestamp
1000000000 (September 2001, strictly in the past at the evaluation instant
1700000000000), `expired` evaluates to `false`, because `expiresAt` computes
`Date.now() + exp` — a future instant for any positive `exp`.  The second
conjunct is the half of the claim the code satisfies: with no `exp` claim,
`expired` is `false`. -/
theorem expired_ignores_absolute_exp :
    JWT.expired ⟨none, none, some 1000000000⟩ 1700000000000 = false ∧
    JWT.expired ⟨none, none, none⟩ 1700000000000 = false :=
  ⟨rfl, rfl⟩

/-- Claim C5 fails on the code: over a store with two decodable, non-expired
signing records of distinct `created` timestamps, `signingKeys` returns only
one pair (record `b`), not both sorted descending — the scan discards the
initial listing page carrying record `a`'s key. -/
theorem signingKeys_misses_first_stored_record :
    (JWK.signingKeys demoSupply 3 ⟨twoKeyStore, 0, 0⟩).map
        (fun r => (r.keys.map KeyPair.id, r.final.writes)) =
      some (["b"], 0) := by
  decide

/-- Claim C6 fails on the code: over a store whose only signing record is
expired, one `signingKeys` call generates and persists TWO new key records,
not one.  The first generated key (`u0`, key `signing:key:u0`) lists before
the stored record `signing:key:z`, so the retry scan discards it with the
initial page and still finds no valid key; only the second generation is
observed.  The returned collection's first element is the new non-expired
pair `u1`, as the claim says, but two records were generated. -/
theorem signingKeys_all_expired_generates_twice :
    (JWK.signingKeys demoSupply 3 ⟨allExpiredStore, 0, 0⟩).map
        (fun r => (r.final.writes, r.keys.map (fun k => (k.id, k.expired)))) =
      some (2, [("u1", none), ("z", some 60)]) := by
  decide

/-- Claim C7 fails on the code as stated: a successful `sign` over the key
list `[keyK1]` selects `keyK1` (its only, algorithm-matching element) yet
writes the constant header `kid` value `"sst"`, which differs from the
selected key's id `"k1"`. -/
theorem sign_kid_counterexample :
    ∃ t, JWT.sign demoPayload Algoritm.ES256 [keyK1] = Except.ok t ∧
      t.header.kid = "sst" ∧ keyK1.id = "k1" ∧ t.header.kid ≠ keyK1.id :=
  ⟨c7Tok, rfl, rfl, rfl, by decide⟩

/-- Claim C7 as amended: every successful `sign` call produces a protected
header whose `alg` is the requested algorithm and whose `typ` is `"JWT"`,
but whose `kid` is the hard-coded string `"sst"`, regardless of which key
pair was selected. -/
theorem sign_header_fields (p : JWT.Payload) (a : Algoritm) (ks : List KeyPair)
    (t : JWT.Token) (h : JWT.sign p a ks = Except.ok t) :
    t.header.alg = a.str ∧ t.header.typ = "JWT" ∧ t.header.kid = "sst" := by
  unfold JWT.sign at h
  cases hf : ks.find? (fun key => key.alg == a) with
  | none => rw [hf] at h; cases h
  | some key =>
    rw [hf] at h
    cases h
    exact ⟨rfl, rfl, rfl⟩

/-- Witness for the amended C7 at a concrete signing call. -/
theorem sign_header_fields_witness :
    c7Tok.header.alg = Algoritm.ES256.str ∧ c7Tok.header.typ = "JWT" ∧
      c7Tok.header.kid = "sst" :=
  sign_header_fields demoPayload Algoritm.ES256 [keyK1] c7Tok rfl

/-- Claim C8: `sign` fails with the no-signing-key error when no key pair in
the list carries the requested algorithm, and a successful `sign` signs with
the FIRST key pair whose algorithm matches: the signature is made with the
private key of an algorithm-matching entry all of whose predecessors fail
the algorithm test. -/
theorem sign_selects_first_matching_key (p : JWT.Payload) (a : Algoritm)
    (ks : List KeyPair) :
    ((∀ k ∈ ks, k.alg ≠ a) →
      JWT.sign p a ks =
        Except.error ("No key available to sign JWT with algorithm " ++ a.str)) ∧
    (∀ t, JWT.sign p a ks = Except.ok t →
      ∃ i, ∃ h : i < ks.length,
        (ks.get ⟨i, h⟩).alg = a ∧
        (∀ j, ∀ hj : j < ks.length, j < i → (ks.get ⟨j, hj⟩).alg ≠ a) ∧
        t.sig = JWT.Signature.mk (ks.get ⟨i, h⟩).priv t.header p) := by
  constructor
  · intro hnone
    have hf : ks.find? (fun key => key.alg == a) = none := by
      rw [List.find?_eq_none]
      intro x hx
      simpa using hnone x hx
    unfold JWT.sign
    rw [hf]
  · intro t h
    unfold JWT.sign at h
    cases hf : ks.find? (fun key => key.alg == a) with
    | none => rw [hf] at h; cases h
    | some key =>
      rw [hf] at h
      obtain ⟨i, hi, hget, hpk, hprev⟩ := find_first_spec _ ks key hf
      cases h
      refine ⟨i, hi, ?_, ?_, ?_⟩
      · rw [hget]; simpa using hpk
      · intro j hj hlt
        have := hprev j hj hlt
        simpa using this
      · rw [hget]

/-- Witness for C8: with no matching key `sign` yields the no-signing-key
error, and over `[keyR1, keyK1]` (an RSA pair first) the produced signature
uses the first ES256 match. -/
theorem sign_selects_first_matching_key_witness :
    JWT.sign demoPayload Algoritm.ES256 ([] : List KeyPair) =
      Except.error ("No key available to sign JWT with algorithm " ++ Algoritm.ES256.str) ∧
    ∃ i, ∃ h : i < ([keyR1, keyK1] : List KeyPair).length,
      (([keyR1, keyK1] : List KeyPair).get ⟨i, h⟩).alg = Algoritm.ES256 ∧
      (∀ j, ∀ hj : j < ([keyR1, keyK1] : List KeyPair).length, j < i →
        (([keyR1, keyK1] : List KeyPair).get ⟨j, hj⟩).alg ≠ Algoritm.ES256) ∧
      c8Tok.sig = JWT.Signature.mk (([keyR1, keyK1] : List KeyPair).get ⟨i, h⟩).priv
        c8Tok.header demoPayload :=
  ⟨(sign_selects_first_matching_key demoPayload Algoritm.ES256 []).1 (by simp),
   (sign_selects_first_matching_key demoPayload Algoritm.ES256 [keyR1, keyK1]).2 c8Tok rfl⟩

/-- Claim C9: importing the serialized form of a freshly generated key pair
(`importKeyPair` after `generateKeyPair`) yields a key pair whose public JWK
carries the generated record's id as `kid` and the same `kty` and coordinate
fields `x`, `y` as the JWK export of the generated public key. -/
theorem importKeyPair_roundtrip (supply : GenSupply) (n : Nat) (alg : Algoritm) :
    (JWK.importKeyPair (JWK.generateKeyPair supply n alg)).jwk.kid =
        some (JWK.generateKeyPair supply n alg).id ∧
    (JWK.importKeyPair (JWK.generateKeyPair supply n alg)).jwk.kty =
        (exportJWK (supply.pubKey n)).kty ∧
    (JWK.importKeyPair (JWK.generateKeyPair supply n alg)).jwk.x =
        (exportJWK (supply.pubKey n)).x ∧
    (JWK.importKeyPair (JWK.generateKeyPair supply n alg)).jwk.y =
        (exportJWK (supply.pubKey n)).y :=
  ⟨rfl, rfl, rfl, rfl⟩

/-- Claim C10: `importKeyPair` stamps every decoded record — whatever
algorithm the record declares — with `alg = ES256` and a public JWK carrying
`use = "sig"`; in particular every key pair in a collection returned by
`encryptionKeys`, which decodes RSA records through `importKeyPair`, carries
`alg = ES256` and `use = "sig"`. -/
theorem importKeyPair_forces_ES256_use_sig (value : SerializedKeyPair) :
    (JWK.importKeyPair value).alg = Algoritm.ES256 ∧
    (JWK.importKeyPair value).jwk.use = some "sig" ∧
    ∀ (supply : GenSupply) (fuel : Nat) (state : JWK.LifecycleState)
      (res : JWK.KeysResult),
      JWK.encryptionKeys supply fuel state = some res →
      ∀ kp ∈ res.keys, kp.alg = Algoritm.ES256 ∧ kp.jwk.use = some "sig" := by
  refine ⟨rfl, rfl, ?_⟩
  intro supply fuel state res h kp hkp
  obtain ⟨d, hd⟩ :=
    keysFor_mem_import supply JWK.encryptionPfx Algoritm.RSA_OAEP_512 fuel state res h kp hkp
  rw [hd]
  exact ⟨rfl, rfl⟩

/-- Witness for C10: a stored RSA encryption record decodes to an `ES256`,
`use = "sig"` pair, and so does the head of a concrete `encryptionKeys`
run. -/
theorem importKeyPair_forces_ES256_use_sig_witness :
    (JWK.importKeyPair rsaRecord).alg = Algoritm.ES256 ∧
    (JWK.importKeyPair rsaRecord).jwk.use = some "sig" ∧
    (c10Head.alg = Algoritm.ES256 ∧ c10Head.jwk.use = some "sig") :=
  ⟨(importKeyPair_forces_ES256_use_sig rsaRecord).1,
   (importKeyPair_forces_ES256_use_sig rsaRecord).2.1,
   (importKeyPair_forces_ES256_use_sig rsaRecord).2.2 demoSupply 3 emptyState c10Res rfl
     c10Head (by decide)⟩

end JWKModel
